import Mathlib

set_option maxRecDepth 4000

/- Shallow embedding of the OpenHands multi-user authentication and webhook
subsystem (openhands/server/user_auth/multi_user_auth.py,
openhands/storage/user/user_store.py, openhands/storage/webhook/webhook_store.py,
openhands/server/routes/auth.py, webhook_management.py, webhooks.py).

Machine times are modelled as natural numbers (seconds since the epoch),
cryptographic primitives (PBKDF2-HMAC-SHA256, HMAC-SHA256, the JWT MAC) as
function parameters, and the file store as explicit association lists keyed
the way the code keys its file paths. -/

namespace OpenHands

/-- Model of `get_password_hash` in multi_user_auth.py: apply
`hashlib.pbkdf2_hmac('sha256', password, salt, 100000).hex()` where the salt is
the process-wide `PASSWORD_SALT` (default `'openhands-salt'`). The derivation
primitive itself is the parameter `kdf` (password, salt, iteration count to hex
string); the code fixes the iteration count at 100000. -/
def get_password_hash (kdf : String → String → Nat → String) (salt password : String) : String :=
  kdf password salt 100000

/-- Model of `verify_password` in multi_user_auth.py: hash the plain password
the same way and compare with ordinary string equality. -/
def verify_password (kdf : String → String → Nat → String) (salt plain hashed : String) : Bool :=
  get_password_hash kdf salt plain == hashed

/-- Decoded JWT payload: the `sub`/`username`/`email` claims written by
`login_user` in routes/auth.py plus the `exp` claim added by
`create_access_token`. -/
structure TokenPayload where
  sub : Option String
  username : Option String
  email : Option String
  exp : Nat
deriving DecidableEq, Repr

/-- The claim data passed to `create_access_token` before `exp` is added. -/
structure TokenData where
  sub : Option String
  username : Option String
  email : Option String
deriving DecidableEq, Repr

/-- A JWT string: either a structurally well-formed token carrying a payload
and a MAC value, or a malformed string that fails JWT decoding outright. -/
inductive TokenString where
  | wellFormed (payload : TokenPayload) (sig : Nat)
  | malformed
deriving DecidableEq, Repr

/-- Constant `JWT_EXPIRATION_MINUTES = 60 * 24` from multi_user_auth.py. -/
def JWT_EXPIRATION_MINUTES : Nat := 60 * 24

/-- Error raised by the auth layer: HTTP 401. -/
inductive AuthError where
  | unauthenticated
deriving DecidableEq, Repr

/-- Model of `create_access_token`: copy the data, set
`exp = now + expires_delta` (default `JWT_EXPIRATION_MINUTES` minutes), and sign
with the process-wide key via the MAC primitive `macFn`. -/
def create_access_token (macFn : TokenPayload → Nat → Nat) (key : Nat)
    (data : TokenData) (now : Nat) (expiresDelta : Option Nat) : TokenString :=
  let expire : Nat :=
    match expiresDelta with
    | some d => now + d
    | none => now + JWT_EXPIRATION_MINUTES * 60
  let payload : TokenPayload :=
    { sub := data.sub, username := data.username, email := data.email, exp := expire }
  TokenString.wellFormed payload (macFn payload key)

/-- Model of `decode_token`: `jwt.decode` verifies the MAC against the
process-wide key and the `exp` claim against the current time (PyJWT rejects
when `exp <= now`); any `PyJWTError` (bad MAC, malformed token, expiry) becomes
an HTTP 401. -/
def decode_token (macFn : TokenPayload → Nat → Nat) (key now : Nat) :
    TokenString → Except AuthError TokenPayload
  | TokenString.malformed => Except.error AuthError.unauthenticated
  | TokenString.wellFormed p sig =>
    if sig = macFn p key then
      if p.exp ≤ now then Except.error AuthError.unauthenticated
      else Except.ok p
    else Except.error AuthError.unauthenticated

/-- C9: for every password `p`, `verify_password p (get_password_hash p)` is
true; for passwords whose derived hashes differ (the "barring collision"
proviso), verifying one against the other's hash is false; and hashing is
deterministic under a fixed salt. -/
theorem password_hash_verify_spec
    (kdf : String → String → Nat → String) (salt p p1 p2 : String)
    (hcoll : get_password_hash kdf salt p1 ≠ get_password_hash kdf salt p2) :
    verify_password kdf salt p (get_password_hash kdf salt p) = true ∧
    verify_password kdf salt p1 (get_password_hash kdf salt p2) = false ∧
    get_password_hash kdf salt p = get_password_hash kdf salt p := by
  refine ⟨?_, ?_, rfl⟩
  · simp [verify_password]
  · simp [verify_password]
    exact hcoll

/-- Concrete instantiation of `password_hash_verify_spec` with a toy
key-derivation function on which the two hashes differ. -/
theorem password_hash_verify_spec_witness :
    get_password_hash (fun pw s n => pw ++ s ++ toString n) "openhands-salt" "aaa" ≠
      get_password_hash (fun pw s n => pw ++ s ++ toString n) "openhands-salt" "bbb" ∧
    verify_password (fun pw s n => pw ++ s ++ toString n) "openhands-salt" "aaa"
      (get_password_hash (fun pw s n => pw ++ s ++ toString n) "openhands-salt" "aaa") = true := by
  have h : get_password_hash (fun pw s n => pw ++ s ++ toString n) "openhands-salt" "aaa" ≠
      get_password_hash (fun pw s n => pw ++ s ++ toString n) "openhands-salt" "bbb" := by
    decide
  exact ⟨h, (password_hash_verify_spec (fun pw s n => pw ++ s ++ toString n)
    "openhands-salt" "aaa" "aaa" "bbb" h).1⟩

/-- C5: issuing a token and decoding it with the same key strictly before its
expiry returns the original subject, and decoding fails with 401 exactly when
the token is malformed, its MAC does not verify, or the current time is at or
past the `exp` claim. -/
theorem token_issue_verify_spec
    (macFn : TokenPayload → Nat → Nat) (key : Nat) (data : TokenData)
    (now d now2 : Nat) (hlt : now2 < now + d) :
    (∃ p, decode_token macFn key now2 (create_access_token macFn key data now (some d)) =
        Except.ok p ∧ p.sub = data.sub) ∧
    (∀ t, decode_token macFn key now2 t = Except.error AuthError.unauthenticated ↔
      (t = TokenString.malformed ∨
        ∃ p sig, t = TokenString.wellFormed p sig ∧ (sig ≠ macFn p key ∨ p.exp ≤ now2))) := by
  constructor
  · have h1 : decode_token macFn key now2 (create_access_token macFn key data now (some d)) =
        Except.ok { sub := data.sub, username := data.username, email := data.email, exp := now + d } := by
      have hne : ¬ (now + d ≤ now2) := by omega
      simp [create_access_token, decode_token, hne]
    exact ⟨_, h1, rfl⟩
  · intro t
    cases t with
    | malformed => simp [decode_token]
    | wellFormed p sig =>
      constructor
      · intro h
        by_cases hs : sig = macFn p key
        · by_cases he : p.exp ≤ now2
          · exact Or.inr ⟨p, sig, rfl, Or.inr he⟩
          · simp [decode_token, hs, he] at h
        · exact Or.inr ⟨p, sig, rfl, Or.inl hs⟩
      · intro h
        rcases h with h | ⟨q, sg, heq, hbad⟩
        · cases h
        · obtain ⟨hp, hsig⟩ : p = q ∧ sig = sg := by
            injection heq with h1 h2
            exact ⟨h1, h2⟩
          subst hp
          subst hsig
          rcases hbad with hs | he
          · simp [decode_token, hs]
          · by_cases hs : sig = macFn p key
            · simp [decode_token, hs, he]
            · simp [decode_token, hs]

/-- Concrete instantiation of `token_issue_verify_spec`: a token issued at time
0 with a 600 second ttl decodes at time 300 to its original subject. -/
theorem token_issue_verify_spec_witness :
    300 < 0 + 600 ∧
    (∃ p, decode_token (fun p k => p.exp + k) 7 300
        (create_access_token (fun p k => p.exp + k) 7
          { sub := some "user-1", username := some "alice", email := none } 0 (some 600)) =
        Except.ok p ∧ p.sub = some "user-1") := by
  refine ⟨by omega, ?_⟩
  exact (token_issue_verify_spec (fun p k => p.exp + k) 7
    { sub := some "user-1", username := some "alice", email := none } 0 600 300 (by omega)).1

/-- Model of the `User` record in storage/data_models/user.py. Timestamps are
naturals, `SecretStr` fields plain strings. -/
structure User where
  user_id : String
  username : String
  email : Option String
  password_hash : Option String
  github_id : Option String
  gitlab_id : Option String
  bitbucket_id : Option String
  created_at : Nat
  last_login : Option Nat
  is_active : Bool
  email_verified : Bool
deriving DecidableEq, Repr

/-- ASCII lowering of one character, the effect of Python `str.lower()` on the
character sets the code stores as usernames and emails. -/
def charLower (c : Char) : Char :=
  if 'A' ≤ c ∧ c ≤ 'Z' then Char.ofNat (c.toNat + 32) else c

/-- Model of Python `str.lower()` used to key the username and email indexes. -/
def strLower (s : String) : String :=
  String.mk (s.data.map charLower)

/-- Find the value bound to a string key in an association list (a file-store
directory: key = file name, value = file contents). -/
def assocFind {α : Type} : List (String × α) → String → Option α
  | [], _ => none
  | (k, v) :: rest, key => if k = key then some v else assocFind rest key

/-- Overwrite or append a key binding in an association list, the way a file
write or a Python dict assignment behaves. -/
def assocSet {α : Type} : List (String × α) → String → α → List (String × α)
  | [], key, v => [(key, v)]
  | (k0, v0) :: rest, key, v =>
    if k0 = key then (key, v) :: rest else (k0, v0) :: assocSet rest key v

/-- State of `FileUserStore`: the per-user JSON files under `users/` plus the
two secondary index files mapping lowercased username/email to user_id. -/
structure UserStoreState where
  users : List (String × User)
  usernameIndex : List (String × String)
  emailIndex : List (String × String)
deriving DecidableEq, Repr

/-- Model of `FileUserStore.save_user`: update the username index (keyed by
`username.lower()`) when the username is truthy, update the email index when an
email is present and truthy, then write the user file. -/
def save_user (st : UserStoreState) (user : User) : UserStoreState :=
  let st1 :=
    if user.username ≠ "" then
      { st with usernameIndex := assocSet st.usernameIndex (strLower user.username) user.user_id }
    else st
  let st2 :=
    match user.email with
    | some e =>
      if e ≠ "" then
        { st1 with emailIndex := assocSet st1.emailIndex (strLower e) user.user_id }
      else st1
    | none => st1
  { st2 with users := assocSet st2.users user.user_id user }

/-- Model of `FileUserStore.get_user`: read the user file; a missing file is a
`FileNotFoundError`, modelled as `none`. -/
def get_user (st : UserStoreState) (uid : String) : Option User :=
  assocFind st.users uid

/-- Model of `FileUserStore.get_user_by_username`: look the lowercased username
up in the index (a falsy hit counts as absent) and then load the user file. -/
def get_user_by_username (st : UserStoreState) (username : String) : Option User :=
  match assocFind st.usernameIndex (strLower username) with
  | none => none
  | some uid => if uid = "" then none else get_user st uid

/-- Model of `FileUserStore.get_user_by_email`, symmetric to the username
lookup. -/
def get_user_by_email (st : UserStoreState) (email : String) : Option User :=
  match assocFind st.emailIndex (strLower email) with
  | none => none
  | some uid => if uid = "" then none else get_user st uid

/-- Model of `FileUserStore.authenticate_user`: look the user up by username;
when a password hash is stored and the password verifies, stamp `last_login`
with the current time, persist via `save_user`, and return the user; in every
other case return `None` and leave the store unchanged. The code performs no
`is_active` check. -/
def authenticate_user (kdf : String → String → Nat → String) (salt : String)
    (st : UserStoreState) (username password : String) (now : Nat) :
    Option User × UserStoreState :=
  match get_user_by_username st username with
  | none => (none, st)
  | some user =>
    match user.password_hash with
    | some ph =>
      if verify_password kdf salt password ph then
        let user2 := { user with last_login := some now }
        (some user2, save_user st user2)
      else (none, st)
    | none => (none, st)

/-- Errors `create_user` raises as `ValueError` before building the user. -/
inductive CreateUserError where
  | usernameConflict
  | emailConflict
deriving DecidableEq, Repr

/-- Model of `create_user` in user_store.py: reject when the username or email
lookup succeeds, otherwise build the user with a fresh id, hashed password,
`is_active = True`, `email_verified = False`, and persist it. -/
def create_user (kdf : String → String → Nat → String) (salt : String)
    (st : UserStoreState) (username email password : String)
    (newId : String) (now : Nat) : Except CreateUserError (User × UserStoreState) :=
  match get_user_by_username st username with
  | some _ => Except.error CreateUserError.usernameConflict
  | none =>
    match get_user_by_email st email with
    | some _ => Except.error CreateUserError.emailConflict
    | none =>
      let user : User :=
        { user_id := newId
          username := username
          email := some email
          password_hash := some (get_password_hash kdf salt password)
          github_id := none
          gitlab_id := none
          bitbucket_id := none
          created_at := now
          last_login := none
          is_active := true
          email_verified := false }
      Except.ok (user, save_user st user)

/-- C7: registration fails with the username conflict whenever the
case-insensitive username lookup succeeds, fails with the email conflict when
the email lookup succeeds, the username lookup sees only the lowercased name
(so `Alice` collides with `alice`), and a successful registration returns a
user with `is_active = true`, `email_verified = false` and the hash of the
supplied password, persisted via `save_user`. -/
theorem register_conflict_and_success_spec
    (kdf : String → String → Nat → String) (salt : String) (st : UserStoreState)
    (username email password newId : String) (now : Nat) :
    ((get_user_by_username st username).isSome = true →
      create_user kdf salt st username email password newId now =
        Except.error CreateUserError.usernameConflict) ∧
    (get_user_by_username st username = none →
      (get_user_by_email st email).isSome = true →
      create_user kdf salt st username email password newId now =
        Except.error CreateUserError.emailConflict) ∧
    (∀ u2 : String, strLower u2 = strLower username →
      get_user_by_username st u2 = get_user_by_username st username) ∧
    (get_user_by_username st username = none →
      get_user_by_email st email = none →
      ∃ u st2, create_user kdf salt st username email password newId now =
          Except.ok (u, st2) ∧
        u.is_active = true ∧ u.email_verified = false ∧
        u.password_hash = some (get_password_hash kdf salt password) ∧
        st2 = save_user st u) := by
  refine ⟨?_, ?_, ?_, ?_⟩
  · intro h
    rcases Option.isSome_iff_exists.mp h with ⟨u, hu⟩
    simp [create_user, hu]
  · intro h1 h2
    rcases Option.isSome_iff_exists.mp h2 with ⟨u, hu⟩
    simp [create_user, h1, hu]
  · intro u2 h
    unfold get_user_by_username
    rw [h]
  · intro h1 h2
    have hcc : create_user kdf salt st username email password newId now =
        Except.ok (⟨newId, username, some email, some (get_password_hash kdf salt password),
            none, none, none, now, none, true, false⟩,
          save_user st ⟨newId, username, some email, some (get_password_hash kdf salt password),
            none, none, none, now, none, true, false⟩) := by
      simp [create_user, h1, h2]
    exact ⟨_, _, hcc, rfl, rfl, rfl, rfl⟩

/-- Toy key-derivation function used only to evaluate the model on concrete
inputs. -/
def exampleKdf : String → String → Nat → String :=
  fun pw s n => pw ++ s ++ toString n

/-- Concrete instantiation of `register_conflict_and_success_spec` replaying
the spec scenario: registering `alice` in the empty store succeeds with
`is_active = true` and `email_verified = false`, and afterwards registering
`Alice` (different case) hits the username conflict. -/
theorem register_conflict_and_success_spec_witness :
    (get_user_by_username ⟨[], [], []⟩ "alice" = none ∧
      get_user_by_email ⟨[], [], []⟩ "alice@x.com" = none ∧
      (∃ u st2, create_user exampleKdf "openhands-salt" ⟨[], [], []⟩
          "alice" "alice@x.com" "password123" "u-1" 5 = Except.ok (u, st2) ∧
        u.is_active = true ∧ u.email_verified = false ∧
        u.password_hash = some (get_password_hash exampleKdf "openhands-salt" "password123") ∧
        st2 = save_user ⟨[], [], []⟩ u)) ∧
    ∀ st2, st2 = save_user ⟨[], [], []⟩
        ⟨"u-1", "alice", some "alice@x.com",
          some (get_password_hash exampleKdf "openhands-salt" "password123"),
          none, none, none, 5, none, true, false⟩ →
      create_user exampleKdf "openhands-salt" st2 "Alice" "other@x.com" "pw123456" "u-2" 9 =
        Except.error CreateUserError.usernameConflict := by
  constructor
  · exact ⟨rfl, rfl,
      (register_conflict_and_success_spec exampleKdf "openhands-salt" ⟨[], [], []⟩
        "alice" "alice@x.com" "password123" "u-1" 5).2.2.2 rfl rfl⟩
  · intro st2 hst
    subst hst
    apply (register_conflict_and_success_spec exampleKdf "openhands-salt" _
      "Alice" "other@x.com" "pw123456" "u-2" 9).1
    decide

/-- A stored user whose account is inactive but whose stored hash matches the
password `password123`. -/
def inactiveUser : User :=
  { user_id := "u-carol"
    username := "carol"
    email := some "carol@x.com"
    password_hash := some (get_password_hash exampleKdf "openhands-salt" "password123")
    github_id := none
    gitlab_id := none
    bitbucket_id := none
    created_at := 0
    last_login := none
    is_active := false
    email_verified := true }

/-- The user store after persisting the inactive user. -/
def inactiveUserStore : UserStoreState := save_user ⟨[], [], []⟩ inactiveUser

/-- C3: evaluation of the code at the failing input. The claim (and the repo's
own integration test `test_login_inactive_user`) requires authentication to
fail when `is_active` is false, but `FileUserStore.authenticate_user` performs
no `is_active` check: the inactive user with the correct password is returned,
with `last_login` stamped and persisted. -/
theorem authenticate_inactive_user_bug :
    inactiveUser.is_active = false ∧
    (authenticate_user exampleKdf "openhands-salt" inactiveUserStore
        "carol" "password123" 42).1 =
      some { inactiveUser with last_login := some 42 } ∧
    get_user (authenticate_user exampleKdf "openhands-salt" inactiveUserStore
        "carol" "password123" 42).2 "u-carol" =
      some { inactiveUser with last_login := some 42 } := by
  refine ⟨rfl, ?_, ?_⟩ <;> decide

/-- Event kinds from `WebhookEventType` in webhook_config.py. -/
inductive WebhookEventType where
  | pullRequest
  | push
  | issue
  | comment
  | all
deriving DecidableEq, Repr

/-- Webhook lifecycle status from `WebhookStatus`. -/
inductive WebhookStatus where
  | active
  | inactive
deriving DecidableEq, Repr

/-- Delivery status from `WebhookLogStatus`. -/
inductive WebhookLogStatus where
  | pending
  | success
  | failure
deriving DecidableEq, Repr

/-- Parsed `pull_request` object of a GitHub payload, holding the fields the
handler reads. -/
structure PullRequestData where
  number : Option Int
  title : Option String
  body : Option String
  head_ref : Option String
  base_ref : Option String
deriving DecidableEq, Repr

/-- Parsed `repository` object of a GitHub payload. -/
structure RepositoryData where
  full_name : Option String
deriving DecidableEq, Repr

/-- Parsed JSON body of an inbound GitHub webhook: each top-level key the
handler reads, `none` when the key is absent. -/
structure PayloadDict where
  action : Option String
  pull_request : Option PullRequestData
  repository : Option RepositoryData
  sender : Option String
deriving DecidableEq, Repr

/-- Model of `WebhookConfig` in webhook_config.py. -/
structure WebhookConfig where
  webhook_id : String
  user_id : String
  name : String
  url : String
  events : List WebhookEventType
  repository : Option String
  secret : Option String
  status : WebhookStatus
  created_at : Nat
  updated_at : Nat
deriving DecidableEq, Repr

/-- Model of `WebhookLog` in webhook_config.py. -/
structure WebhookLog where
  log_id : String
  webhook_id : String
  user_id : String
  event_type : WebhookEventType
  repository : Option String
  pr_number : Option Int
  status : WebhookLogStatus
  request_payload : Option PayloadDict
  response_status : Option Int
  response_body : Option String
  error_message : Option String
  created_at : Nat
deriving DecidableEq, Repr

/-- File-store contents used by `FileWebhookStore`: config files live at
`webhooks/configs/{dir}/{id}.json` and log files at
`webhooks/logs/{dir}/{id}.json`; each entry is (directory user id, file id,
contents) in the order the store lists them. -/
structure WebhookFileState where
  configs : List (String × String × WebhookConfig)
  logs : List (String × String × WebhookLog)
deriving DecidableEq, Repr

/-- Read a config file at `webhooks/configs/{dir}/{fid}.json`. -/
def findConfigFile : List (String × String × WebhookConfig) → String → String →
    Option WebhookConfig
  | [], _, _ => none
  | (d0, f0, cfg) :: rest, d, f =>
    if d0 = d ∧ f0 = f then some cfg else findConfigFile rest d f

/-- Write a config file, overwriting an existing one at the same path. -/
def setConfigFile : List (String × String × WebhookConfig) → String → String →
    WebhookConfig → List (String × String × WebhookConfig)
  | [], d, f, cfg => [(d, f, cfg)]
  | (d0, f0, c0) :: rest, d, f, cfg =>
    if d0 = d ∧ f0 = f then (d, f, cfg) :: rest
    else (d0, f0, c0) :: setConfigFile rest d f cfg

/-- Delete a config file. -/
def removeConfigFile (files : List (String × String × WebhookConfig))
    (d f : String) : List (String × String × WebhookConfig) :=
  files.filter (fun e => ¬ (e.1 = d ∧ e.2.1 = f))

/-- The log files of one user's directory, in store listing order. -/
def logsOfDir (st : WebhookFileState) (dir : String) : List WebhookLog :=
  (st.logs.filter (fun e => e.1 = dir)).map (fun e => e.2.2)

/-- The config files of one user's directory, in store listing order. -/
def configsOfDir (st : WebhookFileState) (dir : String) : List WebhookConfig :=
  (st.configs.filter (fun e => e.1 = dir)).map (fun e => e.2.2)

/-- Model of `FileWebhookStore.get_webhook_config`: read the file under the
store user's own directory; a missing file is `FileNotFoundError`, and an
ownership mismatch raises `ValueError` which the enclosing handler converts
into the same `FileNotFoundError` — both are `none` here. -/
def get_webhook_config (st : WebhookFileState) (storeUser webhookId : String) :
    Option WebhookConfig :=
  match findConfigFile st.configs storeUser webhookId with
  | none => none
  | some cfg => if cfg.user_id = storeUser then some cfg else none

/-- Model of `FileWebhookStore.save_webhook_config`: reject a `user_id`
mismatch (`ValueError`, modelled as `none`), refresh `updated_at`, and write
the file under the store user's directory. -/
def save_webhook_config (st : WebhookFileState) (storeUser : String)
    (cfg : WebhookConfig) (now : Nat) : Option WebhookFileState :=
  if cfg.user_id = storeUser then
    some { st with
      configs := setConfigFile st.configs storeUser cfg.webhook_id
        { cfg with updated_at := now } }
  else none

/-- Model of `FileWebhookStore.delete_webhook_config`: a failed ownership read
is a silent no-op, otherwise the file is deleted. -/
def delete_webhook_config (st : WebhookFileState) (storeUser webhookId : String) :
    WebhookFileState :=
  match get_webhook_config st storeUser webhookId with
  | none => st
  | some _ => { st with configs := removeConfigFile st.configs storeUser webhookId }

/-- Loop body of `FileWebhookStore.list_webhook_logs`: walk the directory in
listing order, keep logs whose `user_id` matches and which pass the optional
`webhook_id` filter, and break as soon as `limit` logs are collected. `cnt` is
the number collected so far. -/
def collectLogsLoop (u : String) (filt : Option String) (limit : Nat) :
    List WebhookLog → Nat → List WebhookLog
  | [], _ => []
  | l :: rest, cnt =>
    if l.user_id = u ∧ (filt = none ∨ filt = some l.webhook_id) then
      if limit ≤ cnt + 1 then [l]
      else l :: collectLogsLoop u filt limit rest (cnt + 1)
    else collectLogsLoop u filt limit rest cnt

/-- Stable insertion used to model Python's stable `list.sort(key=created_at,
reverse=True)`. -/
def insertLogDesc (l : WebhookLog) : List WebhookLog → List WebhookLog
  | [] => [l]
  | x :: xs => if x.created_at ≤ l.created_at then l :: x :: xs else x :: insertLogDesc l xs

/-- Stable sort by `created_at` descending. -/
def sortLogsDesc : List WebhookLog → List WebhookLog
  | [] => []
  | x :: xs => insertLogDesc x (sortLogsDesc xs)

/-- Model of `FileWebhookStore.list_webhook_logs`: reject a `user_id` mismatch
(`ValueError`, modelled `none`); otherwise collect matching logs in listing
order with the early break at `limit`, then sort descending by `created_at`
and slice to `limit`. -/
def list_webhook_logs (st : WebhookFileState) (storeUser userId : String)
    (webhookId : Option String) (limit : Nat) : Option (List WebhookLog) :=
  if userId = storeUser then
    some ((sortLogsDesc (collectLogsLoop storeUser webhookId limit
      (logsOfDir st storeUser) 0)).take limit)
  else none

/-- HTTP-level errors raised by the webhook management routes. -/
inductive ApiError where
  | notFound
  | forbidden
  | internalError
deriving DecidableEq, Repr

/-- Model of `WebhookConfigResponse` in webhook_config.py: the response type
has no secret field. -/
structure WebhookConfigResponse where
  webhook_id : String
  name : String
  url : String
  events : List WebhookEventType
  repository : Option String
  status : WebhookStatus
  created_at : Nat
  updated_at : Nat
deriving DecidableEq, Repr

/-- The response constructed by the routes from a stored config, exactly the
fields the code copies (the secret is not among them). -/
def toWebhookConfigResponse (w : WebhookConfig) : WebhookConfigResponse :=
  { webhook_id := w.webhook_id
    name := w.name
    url := w.url
    events := w.events
    repository := w.repository
    status := w.status
    created_at := w.created_at
    updated_at := w.updated_at }

/-- Model of the route `get_webhook` in webhook_management.py: load the config
from the requesting user's store, answer 404 on `FileNotFoundError`, 403 when
the loaded config's `user_id` differs from the requesting user. -/
def get_webhook (st : WebhookFileState) (currentUser webhookId : String) :
    Except ApiError WebhookConfigResponse :=
  match get_webhook_config st currentUser webhookId with
  | none => Except.error ApiError.notFound
  | some w =>
    if w.user_id ≠ currentUser then Except.error ApiError.forbidden
    else Except.ok (toWebhookConfigResponse w)

/-- Model of `WebhookConfigUpdate`: each field optional, only supplied fields
overwrite. -/
structure WebhookConfigUpdate where
  name : Option String
  url : Option String
  events : Option (List WebhookEventType)
  repository : Option String
  secret : Option String
  status : Option WebhookStatus
deriving DecidableEq, Repr

/-- The field-by-field overwrite performed by the route `update_webhook`. -/
def applyWebhookUpdate (w : WebhookConfig) (d : WebhookConfigUpdate) : WebhookConfig :=
  { w with
    name := d.name.getD w.name
    url := d.url.getD w.url
    events := d.events.getD w.events
    repository := match d.repository with | some r => some r | none => w.repository
    secret := match d.secret with | some s => some s | none => w.secret
    status := d.status.getD w.status }

/-- Model of the route `update_webhook`: same lookup and ownership check as
`get_webhook`, then overwrite supplied fields, persist (which refreshes
`updated_at` on the same object), and return the response built from the
mutated config. -/
def update_webhook (st : WebhookFileState) (currentUser webhookId : String)
    (d : WebhookConfigUpdate) (now : Nat) :
    Except ApiError (WebhookConfigResponse × WebhookFileState) :=
  match get_webhook_config st currentUser webhookId with
  | none => Except.error ApiError.notFound
  | some w =>
    if w.user_id ≠ currentUser then Except.error ApiError.forbidden
    else
      let w2 := applyWebhookUpdate w d
      match save_webhook_config st currentUser w2 now with
      | some st2 => Except.ok (toWebhookConfigResponse { w2 with updated_at := now }, st2)
      | none => Except.error ApiError.internalError

/-- Model of the route `delete_webhook`: a `FileNotFoundError` on the
ownership read is a silent success (idempotent delete); an ownership mismatch
is 403; otherwise the config is deleted. -/
def delete_webhook (st : WebhookFileState) (currentUser webhookId : String) :
    Except ApiError WebhookFileState :=
  match get_webhook_config st currentUser webhookId with
  | none => Except.ok st
  | some w =>
    if w.user_id ≠ currentUser then Except.error ApiError.forbidden
    else Except.ok (delete_webhook_config st currentUser webhookId)

/-- Model of `WebhookConfigCreate`. -/
structure WebhookConfigCreate where
  name : String
  url : String
  events : List WebhookEventType
  repository : Option String
  secret : Option String
deriving DecidableEq, Repr

/-- Model of `create_webhook_config` in webhook_store.py: fresh id, default
`status = ACTIVE`, creation timestamps. -/
def create_webhook_config (userId name url : String) (events : List WebhookEventType)
    (repository secret : Option String) (newId : String) (now : Nat) : WebhookConfig :=
  { webhook_id := newId
    user_id := userId
    name := name
    url := url
    events := events
    repository := repository
    secret := secret
    status := WebhookStatus.active
    created_at := now
    updated_at := now }

/-- Model of the route `create_webhook`: build the config for the
authenticated user, persist it (refreshing `updated_at`), and answer with the
secret-free response. -/
def create_webhook (st : WebhookFileState) (currentUser : String)
    (d : WebhookConfigCreate) (newId : String) (now : Nat) :
    Except ApiError (WebhookConfigResponse × WebhookFileState) :=
  let w := create_webhook_config currentUser d.name d.url d.events d.repository d.secret newId now
  match save_webhook_config st currentUser w now with
  | some st2 => Except.ok (toWebhookConfigResponse { w with updated_at := now }, st2)
  | none => Except.error ApiError.internalError

/-- Model of `FileWebhookStore.list_webhook_configs` followed by the route
`list_webhooks`: list the requesting user's directory, keep configs whose
`user_id` matches, and map each to the secret-free response. -/
def list_webhooks (st : WebhookFileState) (currentUser : String) :
    List WebhookConfigResponse :=
  ((configsOfDir st currentUser).filter
    (fun c => c.user_id = currentUser)).map toWebhookConfigResponse

/-- Helper: a successful config read from `FileWebhookStore` always returns a
config owned by the store's user, because the mismatch branch raises and is
converted to not-found. -/
theorem get_webhook_config_owner (st : WebhookFileState) (u wid : String)
    (w : WebhookConfig) (h : get_webhook_config st u wid = some w) : w.user_id = u := by
  unfold get_webhook_config at h
  split at h
  · cases h
  · split at h
    · cases h
      assumption
    · cases h

/-- A webhook registration owned by `bob`, stored under bob's directory. -/
def bobConfig : WebhookConfig :=
  { webhook_id := "wh-1"
    user_id := "u-bob"
    name := "bob hook"
    url := "https://bob.example/hook"
    events := [WebhookEventType.pullRequest]
    repository := none
    secret := some "tops3cret"
    status := WebhookStatus.active
    created_at := 1
    updated_at := 1 }

/-- Store holding only bob's registration. -/
def crossUserState : WebhookFileState :=
  { configs := [("u-bob", "wh-1", bobConfig)], logs := [] }

/-- An update request with no fields supplied. -/
def emptyUpdate : WebhookConfigUpdate :=
  { name := none, url := none, events := none, repository := none,
    secret := none, status := none }

/-- C2 counterexample: the registration `wh-1` exists but is owned by `u-bob`;
when `u-alice` requests it, `get_webhook` and `update_webhook` answer 404
NotFound, not 403 Forbidden as the claim states, because the store path is
keyed by the requesting user's directory. -/
theorem webhook_cross_user_get_counterexample :
    bobConfig.user_id = "u-bob" ∧
    ("u-alice" : String) ≠ "u-bob" ∧
    findConfigFile crossUserState.configs "u-bob" "wh-1" = some bobConfig ∧
    get_webhook crossUserState "u-alice" "wh-1" = Except.error ApiError.notFound ∧
    get_webhook crossUserState "u-alice" "wh-1" ≠ Except.error ApiError.forbidden ∧
    update_webhook crossUserState "u-alice" "wh-1" emptyUpdate 9 =
      Except.error ApiError.notFound := by
  refine ⟨rfl, by decide, rfl, rfl, ?_, rfl⟩
  have h4 : get_webhook crossUserState "u-alice" "wh-1" = Except.error ApiError.notFound := rfl
  intro hcontra
  rw [h4] at hcontra
  exact absurd (Except.error.inj hcontra) (by decide)

/-- C2 amended: a registration owned by a different identity is invisible to
the requester — the per-user store directory makes the lookup miss, so `get`
and `update` answer NotFound; moreover the routes' Forbidden branch is
unreachable through `FileWebhookStore`, since a successful read always returns
a config owned by the requester. -/
theorem webhook_cross_user_access_spec
    (st : WebhookFileState) (a webhookId : String)
    (habsent : findConfigFile st.configs a webhookId = none) :
    get_webhook st a webhookId = Except.error ApiError.notFound ∧
    (∀ d now, update_webhook st a webhookId d now = Except.error ApiError.notFound) ∧
    (∀ st2 u wid, get_webhook st2 u wid ≠ Except.error ApiError.forbidden) ∧
    (∀ st2 u wid d now, update_webhook st2 u wid d now ≠
      Except.error (α := WebhookConfigResponse × WebhookFileState) ApiError.forbidden) := by
  have hget : get_webhook_config st a webhookId = none := by
    unfold get_webhook_config
    rw [habsent]
  refine ⟨?_, ?_, ?_, ?_⟩
  · unfold get_webhook
    rw [hget]
  · intro d now
    unfold update_webhook
    rw [hget]
  · intro st2 u wid
    unfold get_webhook
    cases hc : get_webhook_config st2 u wid with
    | none => simp
    | some w =>
      have hw := get_webhook_config_owner st2 u wid w hc
      simp [hw]
  · intro st2 u wid d now
    unfold update_webhook
    cases hc : get_webhook_config st2 u wid with
    | none => simp
    | some w =>
      have hw := get_webhook_config_owner st2 u wid w hc
      simp only [hw, ne_eq, not_true_eq_false, if_false]
      cases hs : save_webhook_config st2 u (applyWebhookUpdate w d) now with
      | none => simp
      | some st3 => simp

/-- Concrete instantiation of `webhook_cross_user_access_spec` at the store
holding only bob's registration, requested by alice. -/
theorem webhook_cross_user_access_spec_witness :
    findConfigFile crossUserState.configs "u-alice" "wh-1" = none ∧
    get_webhook crossUserState "u-alice" "wh-1" = Except.error ApiError.notFound := by
  refine ⟨rfl, ?_⟩
  exact (webhook_cross_user_access_spec crossUserState "u-alice" "wh-1" rfl).1

/-- Repeated application of the route `delete_webhook`, propagating the state
on success. -/
def iterate_delete (st : WebhookFileState) (u wid : String) :
    Nat → Except ApiError WebhookFileState
  | 0 => Except.ok st
  | n + 1 =>
    match iterate_delete st u wid n with
    | Except.ok st2 => delete_webhook st2 u wid
    | e => e

/-- C8: deleting a webhook id that has no file under the owner's directory is
a silent success that leaves the store unchanged, and any number of repeated
deletes also succeed silently with the store unchanged. -/
theorem delete_webhook_idempotent_spec
    (st : WebhookFileState) (owner wid : String)
    (habsent : findConfigFile st.configs owner wid = none) :
    delete_webhook st owner wid = Except.ok st ∧
    ∀ n, iterate_delete st owner wid n = Except.ok st := by
  have hget : get_webhook_config st owner wid = none := by
    unfold get_webhook_config
    rw [habsent]
  have hdel : delete_webhook st owner wid = Except.ok st := by
    unfold delete_webhook
    rw [hget]
  refine ⟨hdel, ?_⟩
  intro n
  induction n with
  | zero => rfl
  | succ k ih =>
    unfold iterate_delete
    rw [ih]
    exact hdel

/-- Concrete instantiation of `delete_webhook_idempotent_spec`: `u-alice`
deletes the absent id `wh-9` three times in a row against the store holding
only bob's registration; every call succeeds and the store is untouched. -/
theorem delete_webhook_idempotent_spec_witness :
    findConfigFile crossUserState.configs "u-alice" "wh-9" = none ∧
    delete_webhook crossUserState "u-alice" "wh-9" = Except.ok crossUserState ∧
    iterate_delete crossUserState "u-alice" "wh-9" 3 = Except.ok crossUserState := by
  refine ⟨rfl, ?_, ?_⟩
  · exact (delete_webhook_idempotent_spec crossUserState "u-alice" "wh-9" rfl).1
  · exact (delete_webhook_idempotent_spec crossUserState "u-alice" "wh-9" rfl).2 3

/-- An older delivery log (created_at 1) listed first in the store directory. -/
def earlyLog : WebhookLog :=
  { log_id := "log-a"
    webhook_id := "wh-1"
    user_id := "u-1"
    event_type := WebhookEventType.pullRequest
    repository := some "octo/repo"
    pr_number := some 1
    status := WebhookLogStatus.success
    request_payload := none
    response_status := some 200
    response_body := none
    error_message := none
    created_at := 1 }

/-- A newer delivery log (created_at 2) listed second in the store directory. -/
def lateLog : WebhookLog :=
  { earlyLog with log_id := "log-b", created_at := 2 }

/-- Store whose log directory for `u-1` lists the older log before the newer
one. -/
def twoLogState : WebhookFileState :=
  { configs := [], logs := [("u-1", "log-a", earlyLog), ("u-1", "log-b", lateLog)] }

/-- C6 counterexample: with two matching logs and limit 1, the code collects
the first log in listing order and breaks before ever seeing the newer log, so
the result is the older log — not the most recent one the claim requires. -/
theorem list_logs_truncation_counterexample :
    lateLog.user_id = "u-1" ∧
    lateLog ∈ logsOfDir twoLogState "u-1" ∧
    earlyLog.created_at < lateLog.created_at ∧
    list_webhook_logs twoLogState "u-1" "u-1" none 1 = some [earlyLog] ∧
    list_webhook_logs twoLogState "u-1" "u-1" none 1 ≠ some [lateLog] := by
  refine ⟨rfl, by decide, by decide, rfl, by decide⟩

/-- Helper: membership in a descending insertion. -/
theorem mem_insertLogDesc {x l : WebhookLog} {xs : List WebhookLog} :
    l ∈ insertLogDesc x xs ↔ l = x ∨ l ∈ xs := by
  induction xs with
  | nil => simp [insertLogDesc]
  | cons y ys ih =>
    unfold insertLogDesc
    by_cases h : y.created_at ≤ x.created_at
    · rw [if_pos h]
      simp [List.mem_cons]
    · rw [if_neg h]
      simp only [List.mem_cons, ih]
      tauto

/-- Helper: the descending sort is a permutation at the level of membership. -/
theorem mem_sortLogsDesc {l : WebhookLog} {xs : List WebhookLog} :
    l ∈ sortLogsDesc xs ↔ l ∈ xs := by
  induction xs with
  | nil => simp [sortLogsDesc]
  | cons y ys ih =>
    simp [sortLogsDesc, mem_insertLogDesc, ih]

/-- Helper: inserting into a descending list keeps it descending. -/
theorem pairwise_insertLogDesc (x : WebhookLog) (xs : List WebhookLog)
    (h : List.Pairwise (fun a b => b.created_at ≤ a.created_at) xs) :
    List.Pairwise (fun a b => b.created_at ≤ a.created_at) (insertLogDesc x xs) := by
  induction xs with
  | nil => simp [insertLogDesc]
  | cons y ys ih =>
    rcases List.pairwise_cons.mp h with ⟨hy, hys⟩
    unfold insertLogDesc
    by_cases hc : y.created_at ≤ x.created_at
    · rw [if_pos hc]
      refine List.pairwise_cons.mpr ⟨?_, h⟩
      intro b hb
      rcases List.mem_cons.mp hb with rfl | hb2
      · exact hc
      · exact le_trans (hy b hb2) hc
    · rw [if_neg hc]
      refine List.pairwise_cons.mpr ⟨?_, ih hys⟩
      intro b hb
      rcases mem_insertLogDesc.mp hb with rfl | hb2
      · omega
      · exact hy b hb2

/-- Helper: the sort output is descending in `created_at`. -/
theorem pairwise_sortLogsDesc (xs : List WebhookLog) :
    List.Pairwise (fun a b => b.created_at ≤ a.created_at) (sortLogsDesc xs) := by
  induction xs with
  | nil => simp [sortLogsDesc]
  | cons y ys ih => exact pairwise_insertLogDesc y _ ih

/-- Helper: everything the collection loop keeps comes from the directory and
matches the owner and the optional filter. -/
theorem mem_collectLogsLoop (u : String) (filt : Option String) (limit : Nat) :
    ∀ (xs : List WebhookLog) (cnt : Nat) (l : WebhookLog),
      l ∈ collectLogsLoop u filt limit xs cnt →
      l ∈ xs ∧ l.user_id = u ∧ (filt = none ∨ filt = some l.webhook_id) := by
  intro xs
  induction xs with
  | nil =>
    intro cnt l h
    simp [collectLogsLoop] at h
  | cons y ys ih =>
    intro cnt l h
    unfold collectLogsLoop at h
    by_cases hm : y.user_id = u ∧ (filt = none ∨ filt = some y.webhook_id)
    · rw [if_pos hm] at h
      by_cases hl : limit ≤ cnt + 1
      · rw [if_pos hl] at h
        have : l = y := List.mem_singleton.mp h
        subst this
        exact ⟨List.mem_cons_self _ _, hm⟩
      · rw [if_neg hl] at h
        rcases List.mem_cons.mp h with rfl | h2
        · exact ⟨List.mem_cons_self _ _, hm⟩
        · rcases ih (cnt + 1) l h2 with ⟨h3, h4⟩
          exact ⟨List.mem_cons_of_mem _ h3, h4⟩
    · rw [if_neg hm] at h
      rcases ih cnt l h with ⟨h3, h4⟩
      exact ⟨List.mem_cons_of_mem _ h3, h4⟩

/-- C6 amended: a successful `listLogs` answer is sorted by `created_at`
descending, contains at most `limit` entries, and contains only logs of the
owner's directory that match the owner and the optional `webhook_id` filter —
but it is the first `limit` matches in store listing order, not necessarily
the `limit` most recent. -/
theorem list_logs_filtered_sorted_spec
    (st : WebhookFileState) (u : String) (filt : Option String) (limit : Nat)
    (res : List WebhookLog) (h : list_webhook_logs st u u filt limit = some res) :
    List.Pairwise (fun a b => b.created_at ≤ a.created_at) res ∧
    res.length ≤ limit ∧
    ∀ l ∈ res, l ∈ logsOfDir st u ∧ l.user_id = u ∧
      (filt = none ∨ filt = some l.webhook_id) := by
  unfold list_webhook_logs at h
  rw [if_pos rfl] at h
  injection h with h
  subst h
  refine ⟨?_, ?_, ?_⟩
  · exact List.Pairwise.sublist (List.take_sublist _ _) (pairwise_sortLogsDesc _)
  · rw [List.length_take]
    exact min_le_left _ _
  · intro l hl
    have h1 : l ∈ sortLogsDesc (collectLogsLoop u filt limit (logsOfDir st u) 0) :=
      List.mem_of_mem_take hl
    exact mem_collectLogsLoop u filt limit _ 0 l (mem_sortLogsDesc.mp h1)

/-- Concrete instantiation of `list_logs_filtered_sorted_spec` at the two-log
store with limit 1. -/
theorem list_logs_filtered_sorted_spec_witness :
    list_webhook_logs twoLogState "u-1" "u-1" none 1 = some [earlyLog] ∧
    List.Pairwise (fun a b => b.created_at ≤ a.created_at) [earlyLog] ∧
    List.length [earlyLog] ≤ 1 := by
  refine ⟨rfl, ?_, ?_⟩
  · exact (list_logs_filtered_sorted_spec twoLogState "u-1" none 1 [earlyLog] rfl).1
  · exact (list_logs_filtered_sorted_spec twoLogState "u-1" none 1 [earlyLog] rfl).2.1

/-- C10: the management responses never depend on the stored signing secret.
For any two configs that differ only in the `secret` field, the response
projection is identical, and the responses of `get_webhook`, `list_webhooks`,
`update_webhook` and `create_webhook` (the latter over any two input secrets)
coincide — the response type has no secret field. -/
theorem webhook_secret_noninterference_spec
    (c1 c2 : WebhookConfig) (s : Option String)
    (hsec : c2 = { c1 with secret := s }) :
    toWebhookConfigResponse c1 = toWebhookConfigResponse c2 ∧
    (∀ rest logs u wid,
      get_webhook ⟨(u, wid, c1) :: rest, logs⟩ u wid =
        get_webhook ⟨(u, wid, c2) :: rest, logs⟩ u wid) ∧
    (∀ rest logs u wid,
      list_webhooks ⟨(u, wid, c1) :: rest, logs⟩ u =
        list_webhooks ⟨(u, wid, c2) :: rest, logs⟩ u) ∧
    (∀ rest logs u wid d now,
      Except.map Prod.fst (update_webhook ⟨(u, wid, c1) :: rest, logs⟩ u wid d now) =
        Except.map Prod.fst (update_webhook ⟨(u, wid, c2) :: rest, logs⟩ u wid d now)) ∧
    (∀ st u name url events repo s1 s2 newId now,
      Except.map Prod.fst (create_webhook st u ⟨name, url, events, repo, s1⟩ newId now) =
        Except.map Prod.fst (create_webhook st u ⟨name, url, events, repo, s2⟩ newId now)) := by
  subst hsec
  refine ⟨rfl, ?_, ?_, ?_, ?_⟩
  · intro rest logs u wid
    simp only [get_webhook, get_webhook_config, findConfigFile, and_self, if_pos]
    by_cases hu : c1.user_id = u
    · simp [hu, toWebhookConfigResponse]
    · simp [hu]
  · intro rest logs u wid
    simp only [list_webhooks, configsOfDir, List.filter, decide_eq_true_eq]
    by_cases hu : c1.user_id = u
    · simp [hu, toWebhookConfigResponse]
    · simp [hu]
  · intro rest logs u wid d now
    simp only [update_webhook, get_webhook_config, findConfigFile, and_self, if_pos,
      save_webhook_config, applyWebhookUpdate]
    by_cases hu : c1.user_id = u
    · simp [hu, toWebhookConfigResponse, Except.map]
    · simp [hu]
  · intro st u name url events repo s1 s2 newId now
    simp [create_webhook, create_webhook_config, save_webhook_config,
      toWebhookConfigResponse, Except.map]

/-- Concrete instantiation of `webhook_secret_noninterference_spec`: bob's
registration with its secret replaced produces the same `get_webhook`
response. -/
theorem webhook_secret_noninterference_spec_witness :
    ({ bobConfig with secret := some "other" } : WebhookConfig) =
      { bobConfig with secret := some "other" } ∧
    get_webhook ⟨[("u-bob", "wh-1", bobConfig)], []⟩ "u-bob" "wh-1" =
      get_webhook ⟨[("u-bob", "wh-1", { bobConfig with secret := some "other" })], []⟩
        "u-bob" "wh-1" := by
  refine ⟨rfl, ?_⟩
  exact (webhook_secret_noninterference_spec bobConfig
    { bobConfig with secret := some "other" } (some "other") rfl).2.1 [] [] "u-bob" "wh-1"

/-- Result of one `github_webhook` call: the engine's result dict on success,
the non-error ignored dict, HTTP 401 on bad signature, HTTP 400 from the
catch-all handler. -/
inductive HandlerResult where
  | processed (event action : String)
  | ignored (event : String) (action : Option String)
  | unauthenticated
  | badRequest
deriving DecidableEq, Repr

/-- Observable outcome of one `github_webhook` call: the response, whether
`GitHubWebhookService.process_pr_event` was invoked, and the sequence of
`save_webhook_log` writes in order. -/
structure HandlerOutcome where
  result : HandlerResult
  engineInvoked : Bool
  logWrites : List WebhookLog
deriving DecidableEq, Repr

/-- The `repo_full_name` computed for logging (webhooks.py lines 52-62):
`payload_dict.get('repository', \x7b\x7d).get('full_name', '')`, or Python
`None` when JSON parsing failed. -/
def logRepoName (payload? : Option PayloadDict) : Option String :=
  match payload? with
  | none => none
  | some p =>
    some (match p.repository with
      | some r => r.full_name.getD ""
      | none => "")

/-- The `pr_number` computed for logging: only set for `pull_request` events
whose payload carries a `pull_request` object, defaulting the number to 0. -/
def logPrNumber (event : String) (payload? : Option PayloadDict) : Option Int :=
  match payload? with
  | none => none
  | some p =>
    if event = "pull_request" then
      match p.pull_request with
      | some pr => some (pr.number.getD 0)
      | none => none
    else none

/-- Model of `create_webhook_log` in webhook_store.py. -/
def create_webhook_log (webhookId userId : String) (eventType : WebhookEventType)
    (repository : Option String) (prNumber : Option Int) (status : WebhookLogStatus)
    (payload : Option PayloadDict) (newLogId : String) (now : Nat) : WebhookLog :=
  { log_id := newLogId
    webhook_id := webhookId
    user_id := userId
    event_type := eventType
    repository := repository
    pr_number := prNumber
    status := status
    request_payload := payload
    response_status := none
    response_body := none
    error_message := none
    created_at := now }

/-- The PENDING delivery log `github_webhook` creates: only when both
`user_id` and `webhook_id` query parameters are supplied AND the body parsed
(a parse failure raises `NameError` inside the log-creation `try`, which is
swallowed, leaving no log). -/
def pendingLogOf (event : String) (payload? : Option PayloadDict)
    (userId? webhookId? : Option String) (newLogId : String) (now : Nat) :
    Option WebhookLog :=
  match userId?, webhookId?, payload? with
  | some uid, some wid, some p =>
    some (create_webhook_log wid uid
      (if event = "pull_request" then WebhookEventType.pullRequest else WebhookEventType.all)
      (logRepoName (some p)) (logPrNumber event (some p))
      WebhookLogStatus.pending (some p) newLogId now)
  | _, _, _ => none

/-- Secret resolution (webhooks.py lines 89-103): prefer the per-registration
secret loaded from the caller's own store when `user_id` and `webhook_id` are
supplied, fall back to `server_config.github_webhook_secret`; lookup failures
are swallowed. -/
def resolveWebhookSecret (st : WebhookFileState) (userId? webhookId? : Option String)
    (globalSecret : Option String) : Option String :=
  let userSecret : Option String :=
    match userId?, webhookId? with
    | some uid, some wid =>
      match get_webhook_config st uid wid with
      | some cfg => cfg.secret
      | none => none
    | _, _ => none
  match userSecret with
  | some s => some s
  | none => globalSecret

/-- Python text of `payload_dict.get('action')` inside an f-string. -/
def actionText : Option String → String
  | some a => a
  | none => "None"

/-- The not-processed message written for ignored events. -/
def notProcessedMsg (event : String) (p : PayloadDict) : String :=
  "Event " ++ event ++ " with action " ++ actionText p.action ++ " not processed"

/-- The ignored-event path (webhooks.py lines 199-210): mark the log SUCCESS
with status 200 and the explanatory message, return the non-error ignored
result. -/
def ignoredOutcome (event : String) (p : PayloadDict) (log? : Option WebhookLog)
    (pendingWrites : List WebhookLog) : HandlerOutcome :=
  let okWrites : List WebhookLog :=
    match log? with
    | some l => [{ l with
        status := WebhookLogStatus.success
        response_status := some 200
        error_message := some (notProcessedMsg event p) }]
    | none => []
  { result := HandlerResult.ignored event p.action
    engineInvoked := false
    logWrites := pendingWrites ++ okWrites }

/-- The dispatch stage of `github_webhook` (lines 127-228), entered after
signature verification: a missing parsed body raises `NameError` caught by the
catch-all (400); `pull_request` events are validated through
`GitHubWebhookPayload` (requires `action`, `repository`, `sender`); validated
allow-listed actions invoke the engine and mark the log SUCCESS 200 (or
FAILURE with the raised text when the engine raises, answered 400); every
other combination takes the ignored path. -/
def githubDispatch (engineOutcome : Except String Nat) (event : String) :
    Option PayloadDict → Option WebhookLog → List WebhookLog → HandlerOutcome
  | none, log?, pendingWrites =>
    let failWrites : List WebhookLog :=
      match log? with
      | some l => [{ l with
          status := WebhookLogStatus.failure
          error_message := some "name payload_dict is not defined" }]
      | none => []
    { result := HandlerResult.badRequest
      engineInvoked := false
      logWrites := pendingWrites ++ failWrites }
  | some p, log?, pendingWrites =>
    if event = "pull_request" then
      if p.action.isSome ∧ p.repository.isSome ∧ p.sender.isSome then
        if (p.action.getD "") ∈ (["opened", "synchronize", "reopened"] : List String) then
          match engineOutcome with
          | Except.ok _ =>
            let okWrites : List WebhookLog :=
              match log? with
              | some l => [{ l with
                  status := WebhookLogStatus.success
                  response_status := some 200 }]
              | none => []
            { result := HandlerResult.processed event (p.action.getD "")
              engineInvoked := true
              logWrites := pendingWrites ++ okWrites }
          | Except.error e =>
            let failWrites : List WebhookLog :=
              match log? with
              | some l => [{ l with
                  status := WebhookLogStatus.failure
                  error_message := some e }]
              | none => []
            { result := HandlerResult.badRequest
              engineInvoked := true
              logWrites := pendingWrites ++ failWrites }
        else ignoredOutcome event p log? pendingWrites
      else
        let failWrites : List WebhookLog :=
          match log? with
          | some l => [{ l with
              status := WebhookLogStatus.failure
              error_message := some "validation error for GitHubWebhookPayload" }]
          | none => []
        { result := HandlerResult.badRequest
          engineInvoked := false
          logWrites := pendingWrites ++ failWrites }
    else ignoredOutcome event p log? pendingWrites

/-- The `save_webhook_log` write made at PENDING-log creation time. -/
def pendingWritesOf : Option WebhookLog → List WebhookLog
  | some l => [l]
  | none => []

/-- The FAILURE write made when the signature check rejects: the PENDING log
(when one exists) transitions to FAILURE with the fixed message. -/
def invalidSignatureWrites : Option WebhookLog → List WebhookLog
  | some l => [{ l with
      status := WebhookLogStatus.failure
      error_message := some "Invalid webhook signature" }]
  | none => []

/-- The signature-verification stage (webhooks.py lines 105-125): only when
both a resolved secret and a signature header are present is the signature
checked — `sha256=` + hex HMAC of the raw body compared via
`hmac.compare_digest` (functionally equality); on mismatch answer 401 and
write the FAILURE log, otherwise fall through to the dispatch stage. -/
def signatureStage (hmacFn : String → String → String)
    (engineOutcome : Except String Nat) (event : String)
    (payload? : Option PayloadDict) (log? : Option WebhookLog) (body : String) :
    Option String → Option String → HandlerOutcome
  | some sec, some sig =>
    if ("sha256=" ++ hmacFn sec body) = sig then
      githubDispatch engineOutcome event payload? log? (pendingWritesOf log?)
    else
      { result := HandlerResult.unauthenticated
        engineInvoked := false
        logWrites := pendingWritesOf log? ++ invalidSignatureWrites log? }
  | some _, none => githubDispatch engineOutcome event payload? log? (pendingWritesOf log?)
  | none, _ => githubDispatch engineOutcome event payload? log? (pendingWritesOf log?)

/-- Model of the route `github_webhook` in webhooks.py end to end: create the
PENDING log when attributable and parsed, resolve the secret, run the
signature stage, then the dispatch stage. -/
def github_webhook (hmacFn : String → String → String)
    (engineOutcome : Except String Nat)
    (st : WebhookFileState) (globalSecret : Option String)
    (event : String) (signatureHdr : Option String)
    (userId? webhookId? : Option String)
    (body : String) (payload? : Option PayloadDict)
    (newLogId : String) (now : Nat) : HandlerOutcome :=
  signatureStage hmacFn engineOutcome event payload?
    (pendingLogOf event payload? userId? webhookId? newLogId now) body
    (resolveWebhookSecret st userId? webhookId? globalSecret) signatureHdr

/-- Helper: the dispatch stage never answers 401 — rejection can only come
from the signature check. -/
theorem githubDispatch_ne_unauthenticated
    (engineOutcome : Except String Nat) (event : String) (payload? : Option PayloadDict)
    (log? : Option WebhookLog) (pw : List WebhookLog) :
    (githubDispatch engineOutcome event payload? log? pw).result ≠
      HandlerResult.unauthenticated := by
  cases payload? with
  | none => simp [githubDispatch]
  | some p =>
    simp only [githubDispatch]
    by_cases he : event = "pull_request"
    · rw [if_pos he]
      by_cases hv : p.action.isSome ∧ p.repository.isSome ∧ p.sender.isSome
      · rw [if_pos hv]
        by_cases ha : (p.action.getD "") ∈ (["opened", "synchronize", "reopened"] : List String)
        · rw [if_pos ha]
          cases engineOutcome <;> simp
        · rw [if_neg ha]
          simp [ignoredOutcome]
      · rw [if_neg hv]
        simp
    · rw [if_neg he]
      simp [ignoredOutcome]

/-- Helper: the engine is reached exactly on validated `pull_request` payloads
whose action is in the allow-list. -/
theorem githubDispatch_engine_invoked_iff
    (engineOutcome : Except String Nat) (event : String) (p : PayloadDict)
    (log? : Option WebhookLog) (pw : List WebhookLog) :
    (githubDispatch engineOutcome event (some p) log? pw).engineInvoked = true ↔
      (event = "pull_request" ∧ p.action.isSome ∧ p.repository.isSome ∧ p.sender.isSome ∧
        (p.action.getD "") ∈ (["opened", "synchronize", "reopened"] : List String)) := by
  simp only [githubDispatch]
  by_cases he : event = "pull_request"
  · rw [if_pos he]
    by_cases hv : p.action.isSome ∧ p.repository.isSome ∧ p.sender.isSome
    · rw [if_pos hv]
      by_cases ha : (p.action.getD "") ∈ (["opened", "synchronize", "reopened"] : List String)
      · rw [if_pos ha]
        cases engineOutcome <;> simp [he, hv.1, hv.2.1, hv.2.2, ha]
      · rw [if_neg ha]
        simp [ignoredOutcome, ha]
    · rw [if_neg hv]
      constructor
      · intro h
        simp at h
      · intro h
        exact absurd ⟨h.2.1, h.2.2.1, h.2.2.2.1⟩ hv
  · rw [if_neg he]
    simp [ignoredOutcome, he]

/-- Helper: any log `pendingLogOf` creates is created in PENDING state. -/
theorem pendingLogOf_status (event : String) (payload? : Option PayloadDict)
    (userId? webhookId? : Option String) (newLogId : String) (now : Nat)
    (l : WebhookLog)
    (h : pendingLogOf event payload? userId? webhookId? newLogId now = some l) :
    l.status = WebhookLogStatus.pending := by
  cases userId? with
  | none => simp [pendingLogOf] at h
  | some uid =>
    cases webhookId? with
    | none => simp [pendingLogOf] at h
    | some wid =>
      cases payload? with
      | none => simp [pendingLogOf] at h
      | some p =>
        simp only [pendingLogOf] at h
        injection h with h
        subst h
        rfl

/-- C1: whenever a secret is resolved and a signature header is supplied, a
mismatch between the header and `sha256=` + HMAC of the raw body makes the
call fail 401 with no engine invocation, the PENDING log (created before
verification when one exists) transitioning to FAILURE with "Invalid webhook
signature" as its second write; on a match, or when no secret resolves, or
when no signature header is present, the call proceeds to dispatch and is
never rejected as unauthenticated. -/
theorem webhook_signature_verification_spec
    (hmacFn : String → String → String) (engineOutcome : Except String Nat)
    (st : WebhookFileState) (globalSecret : Option String)
    (event : String) (signatureHdr : Option String)
    (userId? webhookId? : Option String) (body : String) (payload? : Option PayloadDict)
    (newLogId : String) (now : Nat) :
    (∀ sec sig, resolveWebhookSecret st userId? webhookId? globalSecret = some sec →
      signatureHdr = some sig → ("sha256=" ++ hmacFn sec body) ≠ sig →
      github_webhook hmacFn engineOutcome st globalSecret event signatureHdr
          userId? webhookId? body payload? newLogId now =
        { result := HandlerResult.unauthenticated
          engineInvoked := false
          logWrites :=
            pendingWritesOf (pendingLogOf event payload? userId? webhookId? newLogId now) ++
            invalidSignatureWrites (pendingLogOf event payload? userId? webhookId? newLogId now) } ∧
      (∀ l, pendingLogOf event payload? userId? webhookId? newLogId now = some l →
        l.status = WebhookLogStatus.pending ∧
        (github_webhook hmacFn engineOutcome st globalSecret event signatureHdr
            userId? webhookId? body payload? newLogId now).logWrites =
          [l, { l with
            status := WebhookLogStatus.failure
            error_message := some "Invalid webhook signature" }])) ∧
    (∀ sec sig, resolveWebhookSecret st userId? webhookId? globalSecret = some sec →
      signatureHdr = some sig → ("sha256=" ++ hmacFn sec body) = sig →
      github_webhook hmacFn engineOutcome st globalSecret event signatureHdr
          userId? webhookId? body payload? newLogId now =
        githubDispatch engineOutcome event payload?
          (pendingLogOf event payload? userId? webhookId? newLogId now)
          (pendingWritesOf (pendingLogOf event payload? userId? webhookId? newLogId now)) ∧
      (github_webhook hmacFn engineOutcome st globalSecret event signatureHdr
          userId? webhookId? body payload? newLogId now).result ≠
        HandlerResult.unauthenticated) ∧
    (resolveWebhookSecret st userId? webhookId? globalSecret = none →
      (github_webhook hmacFn engineOutcome st globalSecret event signatureHdr
          userId? webhookId? body payload? newLogId now).result ≠
        HandlerResult.unauthenticated) ∧
    (signatureHdr = none →
      (github_webhook hmacFn engineOutcome st globalSecret event signatureHdr
          userId? webhookId? body payload? newLogId now).result ≠
        HandlerResult.unauthenticated) := by
  refine ⟨?_, ?_, ?_, ?_⟩
  · intro sec sig hsec hsig hne
    subst hsig
    have hrej : github_webhook hmacFn engineOutcome st globalSecret event (some sig)
        userId? webhookId? body payload? newLogId now =
      { result := HandlerResult.unauthenticated
        engineInvoked := false
        logWrites :=
          pendingWritesOf (pendingLogOf event payload? userId? webhookId? newLogId now) ++
          invalidSignatureWrites (pendingLogOf event payload? userId? webhookId? newLogId now) } := by
      unfold github_webhook
      rw [hsec]
      simp only [signatureStage]
      rw [if_neg hne]
    refine ⟨hrej, ?_⟩
    intro l hl
    refine ⟨pendingLogOf_status event payload? userId? webhookId? newLogId now l hl, ?_⟩
    rw [hrej]
    rw [hl]
    rfl
  · intro sec sig hsec hsig heq
    subst hsig
    have hok : github_webhook hmacFn engineOutcome st globalSecret event (some sig)
        userId? webhookId? body payload? newLogId now =
      githubDispatch engineOutcome event payload?
        (pendingLogOf event payload? userId? webhookId? newLogId now)
        (pendingWritesOf (pendingLogOf event payload? userId? webhookId? newLogId now)) := by
      unfold github_webhook
      rw [hsec]
      simp only [signatureStage]
      rw [if_pos heq]
    refine ⟨hok, ?_⟩
    rw [hok]
    exact githubDispatch_ne_unauthenticated engineOutcome event payload? _ _
  · intro hnone
    unfold github_webhook
    rw [hnone]
    simp only [signatureStage]
    exact githubDispatch_ne_unauthenticated engineOutcome event payload? _ _
  · intro hsigNone
    subst hsigNone
    unfold github_webhook
    cases hsec : resolveWebhookSecret st userId? webhookId? globalSecret with
    | none =>
      simp only [signatureStage]
      exact githubDispatch_ne_unauthenticated engineOutcome event payload? _ _
    | some sec =>
      simp only [signatureStage]
      exact githubDispatch_ne_unauthenticated engineOutcome event payload? _ _

/-- Toy HMAC primitive used only to evaluate the model on concrete inputs. -/
def exampleHmac : String → String → String := fun key b => key ++ b

/-- A registration for `u-1` carrying a per-registration secret `k1`. -/
def secretConfigState : WebhookFileState :=
  { configs := [("u-1", "wh-1",
      { webhook_id := "wh-1"
        user_id := "u-1"
        name := "hook"
        url := "https://x.example/hook"
        events := [WebhookEventType.pullRequest]
        repository := none
        secret := some "k1"
        status := WebhookStatus.active
        created_at := 0
        updated_at := 0 })]
    logs := [] }

/-- A parseable payload whose action is `closed`, with repository and sender
objects present. -/
def simplePayload : PayloadDict :=
  { action := some "closed"
    pull_request := none
    repository := some { full_name := some "octo/repo" }
    sender := some "octocat" }

/-- Concrete instantiation of `webhook_signature_verification_spec`: the
per-registration secret `k1` is resolved, the supplied signature mismatches
the expected one, and the call is rejected as unauthenticated. -/
theorem webhook_signature_verification_spec_witness :
    resolveWebhookSecret secretConfigState (some "u-1") (some "wh-1") none = some "k1" ∧
    ("sha256=" ++ exampleHmac "k1" "body") ≠ "sha256=bad" ∧
    (github_webhook exampleHmac (Except.ok 200) secretConfigState none "pull_request"
        (some "sha256=bad") (some "u-1") (some "wh-1") "body" (some simplePayload)
        "log-1" 3).result = HandlerResult.unauthenticated := by
  have h := (webhook_signature_verification_spec exampleHmac (Except.ok 200)
      secretConfigState none "pull_request" (some "sha256=bad") (some "u-1") (some "wh-1")
      "body" (some simplePayload) "log-1" 3).1 "k1" "sha256=bad" rfl rfl (by decide)
  refine ⟨rfl, by decide, ?_⟩
  rw [h.1]

/-- Helper: every non-allow-listed combination with a parsed payload — a
different event kind, or a validated `pull_request` payload whose action is
outside the allow-list — takes the ignored path. -/
theorem githubDispatch_ignored_case
    (engineOutcome : Except String Nat) (event : String) (p : PayloadDict)
    (log? : Option WebhookLog) (pw : List WebhookLog)
    (h : event ≠ "pull_request" ∨
      (p.action.isSome ∧ p.repository.isSome ∧ p.sender.isSome ∧
        ¬ (p.action.getD "") ∈ (["opened", "synchronize", "reopened"] : List String))) :
    githubDispatch engineOutcome event (some p) log? pw = ignoredOutcome event p log? pw := by
  simp only [githubDispatch]
  rcases h with he | ⟨hv1, hv2, hv3, ha⟩
  · rw [if_neg he]
  · by_cases he : event = "pull_request"
    · rw [if_pos he, if_pos ⟨hv1, hv2, hv3⟩, if_neg ha]
    · rw [if_neg he]

/-- A payload whose action is `opened` but whose `sender` object is missing,
so `GitHubWebhookPayload(**payload_dict)` raises a validation error. -/
def invalidOpenedPayload : PayloadDict :=
  { action := some "opened"
    pull_request := some { number := some 1, title := some "t", body := none,
                           head_ref := some "h", base_ref := some "b" }
    repository := some { full_name := some "octo/repo" }
    sender := none }

/-- C4 counterexample: the event kind is `pull_request` and the action is
`opened`, yet the engine is never invoked — payload validation fails on the
missing `sender` and the call answers 400 instead of forwarding. -/
theorem webhook_dispatch_counterexample :
    invalidOpenedPayload.action = some "opened" ∧
    (github_webhook exampleHmac (Except.ok 200) ⟨[], []⟩ none "pull_request" none none none
        "body" (some invalidOpenedPayload) "log-1" 0).engineInvoked = false ∧
    (github_webhook exampleHmac (Except.ok 200) ⟨[], []⟩ none "pull_request" none none none
        "body" (some invalidOpenedPayload) "log-1" 0).result = HandlerResult.badRequest := by
  refine ⟨rfl, by decide, by decide⟩

/-- Helper: a `pull_request` event whose payload fails `GitHubWebhookPayload`
structural validation takes the catch-all branch: 400 answer, no engine
invocation, and the log (when one exists) transitions to FAILURE with the
validation-error text. -/
theorem githubDispatch_validation_failure
    (engineOutcome : Except String Nat) (event : String) (p : PayloadDict)
    (log? : Option WebhookLog) (pw : List WebhookLog)
    (he : event = "pull_request")
    (hv : ¬ (p.action.isSome ∧ p.repository.isSome ∧ p.sender.isSome)) :
    githubDispatch engineOutcome event (some p) log? pw =
      { result := HandlerResult.badRequest
        engineInvoked := false
        logWrites := pw ++ (match log? with
          | some l => [{ l with
              status := WebhookLogStatus.failure
              error_message := some "validation error for GitHubWebhookPayload" }]
          | none => []) } := by
  simp only [githubDispatch]
  rw [if_pos he, if_neg hv]

/-- C4 amended: for a call with a parsed payload that reaches dispatch (no
signature header, so verification is skipped), the engine is invoked iff the
event kind is `pull_request`, the payload passes structural validation
(`action`, `repository`, `sender` present), and the action is in the
allow-list; a different event kind, or a validated payload with a
non-allow-listed action, yields the non-error ignored result and marks the
log SUCCESS 200 with the not-processed message; and a `pull_request` payload
failing validation is answered 400 with the log transitioning PENDING to
FAILURE and the engine never invoked. -/
theorem webhook_dispatch_allowlist_spec
    (hmacFn : String → String → String) (engineOutcome : Except String Nat)
    (st : WebhookFileState) (globalSecret : Option String) (event : String)
    (userId? webhookId? : Option String) (body : String) (p : PayloadDict)
    (newLogId : String) (now : Nat) (out : HandlerOutcome)
    (hout : github_webhook hmacFn engineOutcome st globalSecret event none
      userId? webhookId? body (some p) newLogId now = out) :
    (out.engineInvoked = true ↔
      (event = "pull_request" ∧ p.action.isSome ∧ p.repository.isSome ∧ p.sender.isSome ∧
        (p.action.getD "") ∈ (["opened", "synchronize", "reopened"] : List String))) ∧
    ((event ≠ "pull_request" ∨
        (p.action.isSome ∧ p.repository.isSome ∧ p.sender.isSome ∧
          ¬ (p.action.getD "") ∈ (["opened", "synchronize", "reopened"] : List String))) →
      out.result = HandlerResult.ignored event p.action ∧
      ∀ l, pendingLogOf event (some p) userId? webhookId? newLogId now = some l →
        out.logWrites = [l, { l with
          status := WebhookLogStatus.success
          response_status := some 200
          error_message := some (notProcessedMsg event p) }]) ∧
    ((event = "pull_request" ∧
        ¬ (p.action.isSome ∧ p.repository.isSome ∧ p.sender.isSome)) →
      out.result = HandlerResult.badRequest ∧
      out.engineInvoked = false ∧
      ∀ l, pendingLogOf event (some p) userId? webhookId? newLogId now = some l →
        l.status = WebhookLogStatus.pending ∧
        out.logWrites = [l, { l with
          status := WebhookLogStatus.failure
          error_message := some "validation error for GitHubWebhookPayload" }]) := by
  have hdisp : out = githubDispatch engineOutcome event (some p)
      (pendingLogOf event (some p) userId? webhookId? newLogId now)
      (pendingWritesOf (pendingLogOf event (some p) userId? webhookId? newLogId now)) := by
    rw [← hout]
    unfold github_webhook
    cases hsec : resolveWebhookSecret st userId? webhookId? globalSecret with
    | none => simp only [signatureStage]
    | some sec => simp only [signatureStage]
  subst hdisp
  refine ⟨?_, ?_, ?_⟩
  · exact githubDispatch_engine_invoked_iff engineOutcome event p _ _
  · intro hcase
    rw [githubDispatch_ignored_case engineOutcome event p _ _ hcase]
    refine ⟨rfl, ?_⟩
    intro l hl
    rw [hl]
    rfl
  · intro hcase
    rw [githubDispatch_validation_failure engineOutcome event p _ _ hcase.1 hcase.2]
    refine ⟨rfl, rfl, ?_⟩
    intro l hl
    refine ⟨pendingLogOf_status event (some p) userId? webhookId? newLogId now l hl, ?_⟩
    rw [hl]
    rfl

/-- The PENDING log created for the attributable validation-failure call of
the witness below. -/
def pendingInvalidLog : WebhookLog :=
  create_webhook_log "wh-1" "u-1" WebhookEventType.pullRequest (some "octo/repo")
    (some 1) WebhookLogStatus.pending (some invalidOpenedPayload) "log-1" 0

/-- Concrete instantiation of `webhook_dispatch_allowlist_spec`: a `push`
event with a parsed payload is ignored (non-error result) with no engine
invocation, and an attributable `pull_request` call whose payload fails
validation answers 400 with no engine invocation, its PENDING log followed by
the FAILURE validation-error write. -/
theorem webhook_dispatch_allowlist_spec_witness :
    (github_webhook exampleHmac (Except.ok 200) ⟨[], []⟩ none "push" none
        (some "u-1") (some "wh-1") "body" (some simplePayload) "log-1" 0).result =
      HandlerResult.ignored "push" (some "closed") ∧
    (github_webhook exampleHmac (Except.ok 200) ⟨[], []⟩ none "push" none
        (some "u-1") (some "wh-1") "body" (some simplePayload) "log-1" 0).engineInvoked =
      false ∧
    pendingLogOf "pull_request" (some invalidOpenedPayload) (some "u-1") (some "wh-1")
      "log-1" 0 = some pendingInvalidLog ∧
    (github_webhook exampleHmac (Except.ok 200) ⟨[], []⟩ none "pull_request" none
        (some "u-1") (some "wh-1") "body" (some invalidOpenedPayload) "log-1" 0).result =
      HandlerResult.badRequest ∧
    (github_webhook exampleHmac (Except.ok 200) ⟨[], []⟩ none "pull_request" none
        (some "u-1") (some "wh-1") "body" (some invalidOpenedPayload) "log-1" 0).engineInvoked =
      false ∧
    (github_webhook exampleHmac (Except.ok 200) ⟨[], []⟩ none "pull_request" none
        (some "u-1") (some "wh-1") "body" (some invalidOpenedPayload) "log-1" 0).logWrites =
      [pendingInvalidLog, { pendingInvalidLog with
        status := WebhookLogStatus.failure
        error_message := some "validation error for GitHubWebhookPayload" }] := by
  have h := webhook_dispatch_allowlist_spec exampleHmac (Except.ok 200) ⟨[], []⟩ none
    "push" (some "u-1") (some "wh-1") "body" simplePayload "log-1" 0 _ rfl
  have h2 := (h.2.1 (Or.inl (by decide))).1
  have hpr := webhook_dispatch_allowlist_spec exampleHmac (Except.ok 200) ⟨[], []⟩ none
    "pull_request" (some "u-1") (some "wh-1") "body" invalidOpenedPayload "log-1" 0 _ rfl
  have hval := hpr.2.2 ⟨rfl, by decide⟩
  refine ⟨h2, ?_, rfl, hval.1, hval.2.1, (hval.2.2 pendingInvalidLog rfl).2⟩
  have h3 := h.1
  by_cases hb : (github_webhook exampleHmac (Except.ok 200) ⟨[], []⟩ none "push" none
      (some "u-1") (some "wh-1") "body" (some simplePayload) "log-1" 0).engineInvoked = true
  · exact absurd (h3.mp hb).1 (by decide)
  · simpa using hb

end OpenHands
